import Mathlib

/-!
Verification of the invoice server actions in `src/app/lib/action.ts`
(create / update / delete invoice plus the credential-authentication
wrapper).

The handlers are embedded shallowly:

* JavaScript numbers are IEEE-754 binary64 values; they are embedded
  exactly as pairs `⟨m, e⟩ : ℤ × ℤ` denoting `m * 2^e`, with every
  arithmetic result re-rounded to 53 significant bits with
  round-to-nearest, ties-to-even (the `Dbl` type below).  The values
  occurring here are far inside the normal range, so exponent
  overflow/underflow and subnormals never arise and are not modelled.
* `formData.get` yields `null` or a string, embedded as `Option String`.
* The zod schema `FormSchema.omit({id, date})` (used for both
  `CreateInvoice` and `UpdateInvoice`) is embedded as `safeParse`.
* The database table, which is external to the source file, is modelled
  from the spec as a list of rows; the three parameterized SQL
  statements become the obvious list operations.  A store-level failure
  is modelled by a boolean `dbFail` input: when it is set, the statement
  raises and the `catch` branch of the handler runs.
* `revalidatePath` and `redirect` are recorded as an ordered effect
  trace; `redirect` also ends the handler, recorded in the result value.
-/

/-! ## IEEE-754 binary64 model (JavaScript numbers) -/

/-- A binary64 value `m * 2^e`.  Values produced by the operations below
are canonical: either `m = 0`, or `2^52 ≤ |m| < 2^53`. -/
structure Dbl where
  m : ℤ
  e : ℤ
deriving DecidableEq

/-- Fuel-driven binary logarithm (the kernel cannot reduce `Nat.log2`,
which is defined by well-founded recursion). -/
def log2fuel : Nat → Nat → Nat
  | 0, _ => 0
  | fuel + 1, n => if 2 ≤ n then log2fuel fuel (n / 2) + 1 else 0

/-- Number of binary digits of `n`: `2^(bitlen n - 1) ≤ n < 2^(bitlen n)`
for `n ≠ 0`.  Fuel 320 is enough for every number below `2^320`; all
numbers occurring here are below `2^110`. -/
def bitlen (n : Nat) : Nat := if n = 0 then 0 else log2fuel 320 n + 1

/-- Round `a / b` to the nearest integer, ties to even (`b ≠ 0`). -/
def rneNat (a b : Nat) : Nat :=
  let q := a / b
  let r := a % b
  if 2 * r < b then q
  else if b < 2 * r then q + 1
  else if q % 2 = 0 then q else q + 1

/-- Round `(a / b) * 2^(-e)` to the nearest integer, ties to even. -/
def rneScaled (a b : Nat) (e : ℤ) : Nat :=
  if 0 ≤ e then rneNat a (b * 2 ^ e.toNat) else rneNat (a * 2 ^ (-e).toNat) b

/-- Nearest binary64 to the positive rational `a / b` (`0 < a`, `0 < b`):
choose the exponent `e` with `2^52 ≤ (a/b) * 2^(-e) < 2^53` and round the
53-bit mantissa, ties to even.  The first candidate exponent puts the
scaled value in `[2^52, 2^54)`; if the mantissa comes out at `2^53` or
above, the value is re-rounded one binade up (never by halving the
already rounded mantissa, which would double-round). -/
def roundPosRatio (a b : Nat) : Dbl :=
  let e0 : ℤ := (bitlen a : ℤ) - (bitlen b : ℤ) - 53
  let m0 := rneScaled a b e0
  if m0 < 2 ^ 53 then ⟨m0, e0⟩
  else
    let m1 := rneScaled a b (e0 + 1)
    if m1 < 2 ^ 53 then ⟨m1, e0 + 1⟩ else ⟨2 ^ 52, e0 + 2⟩

/-- Nearest binary64 to the rational `a / b` (`0 < b`). -/
def roundRatio (a : ℤ) (b : Nat) : Dbl :=
  if a = 0 then ⟨0, 0⟩
  else if 0 < a then roundPosRatio a.toNat b
  else
    let d := roundPosRatio (-a).toNat b
    ⟨-d.m, d.e⟩

/-- The binary64 value of an integer (exact for `|n| ≤ 2^53`). -/
def Dbl.ofInt (n : ℤ) : Dbl := roundRatio n 1

/-- Binary64 multiplication: the exact product, rounded to 53 bits. -/
def Dbl.mul (x y : Dbl) : Dbl :=
  if x.m * y.m = 0 then ⟨0, 0⟩
  else
    let d := roundRatio (x.m * y.m) 1
    ⟨d.m, d.e + x.e + y.e⟩

/-- The exact rational value of a binary64 datum. -/
def Dbl.toRat (d : Dbl) : ℚ :=
  if 0 ≤ d.e then (d.m : ℚ) * 2 ^ d.e.toNat else (d.m : ℚ) / 2 ^ (-d.e).toNat

/-! ## JavaScript string-to-number coercion

`z.coerce.number()` applies the JavaScript `Number(...)` conversion.
`Number(null) = 0`, `Number("") = 0` (after trimming whitespace), and a
decimal literal with optional sign and fraction converts to the nearest
binary64.  Inputs outside this decimal grammar (hex, exponent notation,
`Infinity`, garbage) yield `NaN`, embedded as `none`. -/

/-- The numeric value of a digit string (most significant first). -/
def natOfDigits (l : List Char) : Nat :=
  l.foldl (fun a c => 10 * a + (c.toNat - 48)) 0

/-- Parse an unsigned decimal literal `digits [ "." digits ]` (at least
one digit overall) into an exact ratio `numerator / denominator`. -/
def parseUnsignedRatio (l : List Char) : Option (Nat × Nat) :=
  let ip := l.takeWhile Char.isDigit
  let rest := l.drop ip.length
  match rest with
  | [] => if ip.isEmpty then none else some (natOfDigits ip, 1)
  | '.' :: frac =>
    if frac.all Char.isDigit && !(ip.isEmpty && frac.isEmpty) then
      some (natOfDigits ip * 10 ^ frac.length + natOfDigits frac, 10 ^ frac.length)
    else none
  | _ => none

/-- JavaScript `Number(s)` for a trimmed decimal string; `none` is NaN. -/
def jsStringToNumber (s : String) : Option Dbl :=
  let t := ((s.data.dropWhile Char.isWhitespace).reverse.dropWhile Char.isWhitespace).reverse
  match t with
  | [] => some ⟨0, 0⟩
  | '-' :: rest => (parseUnsignedRatio rest).map (fun p => roundRatio (-(p.1 : ℤ)) p.2)
  | '+' :: rest => (parseUnsignedRatio rest).map (fun p => roundRatio (p.1 : ℤ) p.2)
  | _ => (parseUnsignedRatio t).map (fun p => roundRatio (p.1 : ℤ) p.2)

/-- The coercion step of `z.coerce.number()` on a form value:
`Number(null) = 0`, strings go through `Number(...)`. -/
def coerceNumber : Option String → Option Dbl
  | none => some ⟨0, 0⟩
  | some s => jsStringToNumber s

/-! ## The zod schema `FormSchema.omit({ id: true, date: true })`

Both `CreateInvoice` and `UpdateInvoice` in the source are this same
schema.  Each field validator returns either the parsed value or its
error-message list; `safeParse` aggregates the per-field errors exactly
as `error.flatten().fieldErrors` does. -/

/-- Field validator for `customerId`: `z.string({ invalid_type_error:
'Please select a customer.' })`.  Any string — including the empty
string — is accepted; only a non-string (the `null` of a missing form
field) is an `invalid_type` failure. -/
def parseCustomerId : Option String → Except (List String) String
  | none => .error ["Please select a customer."]
  | some s => .ok s

/-- Field validator for `amount`: `z.coerce.number().gt(0, ...)`.  A NaN
coercion is an `invalid_type` failure (zod default message); a number
that is not strictly positive fails the `gt` check with the message from
the source — note the source misspells "greater" as "greate".  The sign
test `0 < q.m` is exactly `q > 0` on binary64 values. -/
def parseAmount (v : Option String) : Except (List String) Dbl :=
  match coerceNumber v with
  | none => .error ["Expected number, received nan"]
  | some q => if 0 < q.m then .ok q else .error ["Please enter an amount greate than $0."]

/-- Field validator for `status`: `z.enum(['pending', 'paid'], {
invalid_type_error: 'Please select an invoice status.' })`.  The
`invalid_type_error` fires only on a non-string; a string outside the
enumeration gets the zod `invalid_enum_value` default message (whose
option names are quoted in zod; the quotes are omitted here). -/
def parseStatus : Option String → Except (List String) String
  | none => .error ["Please select an invoice status."]
  | some s =>
    if s = "pending" || s = "paid" then .ok s
    else .error ["Invalid enum value. Expected pending | paid, received " ++ s]

/-- The per-field entry of `error.flatten().fieldErrors`. -/
def errList {α : Type} : Except (List String) α → List String
  | .error e => e
  | .ok _ => []

/-- The three raw form fields read with `formData.get`. -/
structure RawForm where
  customerId : Option String
  amount : Option String
  status : Option String
deriving DecidableEq

/-- The flattened field errors of a failed parse. -/
structure FieldErrors where
  customerId : List String
  amount : List String
  status : List String
deriving DecidableEq

/-- The validated data of a successful parse. -/
structure InvoiceFields where
  customerId : String
  amount : Dbl
  status : String
deriving DecidableEq

/-- The safeParse of the schema (both `CreateInvoice.safeParse` and
`UpdateInvoice.safeParse` in the source): every field is
validated; on any failure the per-field error lists are aggregated. -/
def safeParse (f : RawForm) : Except FieldErrors InvoiceFields :=
  match parseCustomerId f.customerId, parseAmount f.amount, parseStatus f.status with
  | .ok c, .ok a, .ok s => .ok ⟨c, a, s⟩
  | rc, ra, rs => .error ⟨errList rc, errList ra, errList rs⟩

/-! ## The invoices table and the SQL statements

Modelled from the spec: the repository fragment contains only the
handlers; the store is the external `invoices` table with columns
`id, customer_id, amount, status, date`, and each handler issues one
parameterized statement with the standard SQL semantics (insert appends
a row with a store-assigned id; update/delete affect every row whose
`id` column equals the bound parameter). -/

/-- Modelled from the spec: one row of the `invoices` table. -/
structure InvoiceRow where
  id : String
  customer_id : String
  amount : Dbl
  status : String
  date : String
deriving DecidableEq

/-- Modelled from the spec: `INSERT INTO invoices (customer_id, amount,
status, date) VALUES (...)` — one row is appended; its `id` is assigned
by the store and is passed in as `newId`. -/
def insertInvoiceRow (t : List InvoiceRow) (r : InvoiceRow) : List InvoiceRow := t ++ [r]

/-- Modelled from the spec: the effect of `UPDATE invoices SET
customer_id = _, amount = _, status = _ WHERE id = _` on one row. -/
def updateInvoiceRow (id cid : String) (amt : Dbl) (st : String) (r : InvoiceRow) : InvoiceRow :=
  if r.id = id then ⟨r.id, cid, amt, st, r.date⟩ else r

/-- Modelled from the spec: the `UPDATE ... WHERE id = _` statement. -/
def sqlUpdateInvoices (t : List InvoiceRow) (id cid : String) (amt : Dbl) (st : String) :
    List InvoiceRow :=
  t.map (updateInvoiceRow id cid amt st)

/-- Modelled from the spec: `DELETE FROM invoices WHERE id = _`. -/
def sqlDeleteInvoices (t : List InvoiceRow) (id : String) : List InvoiceRow :=
  t.filter (fun r => r.id != id)

/-! ## Dates -/

/-- The current calendar date (UTC), an environment input. -/
structure CalDate where
  year : Nat
  month : Nat
  day : Nat
deriving DecidableEq

/-- Two-digit zero padding, as in an ISO date. -/
def padTo2 (n : Nat) : String := if n < 10 then "0" ++ toString n else toString n

/-- Four-digit zero padding, as in an ISO date year. -/
def padTo4 (n : Nat) : String :=
  if n < 10 then "000" ++ toString n
  else if n < 100 then "00" ++ toString n
  else if n < 1000 then "0" ++ toString n
  else toString n

/-- The date part of `new Date().toISOString().split('T')[0]`: the date part of the ISO
timestamp, `YYYY-MM-DD`. -/
def isoDateString (d : CalDate) : String :=
  padTo4 d.year ++ "-" ++ padTo2 d.month ++ "-" ++ padTo2 d.day

/-! ## Handler results and effects -/

/-- The `State` result shape of the source (field errors and message). -/
structure State where
  errors : Option FieldErrors
  message : Option String
deriving DecidableEq

/-- The framework side effects a handler performs, in order. -/
inductive Effect where
  | revalidate (path : String)
  | redirect (path : String)
deriving DecidableEq

/-- How a handler hands control back: a returned value, or a redirect
(`redirect` throws in the framework, so it both ends the handler and
navigates). -/
inductive ActionResult where
  | returned (state : State)
  | redirected (path : String)
deriving DecidableEq

/-- Everything observable about one handler invocation: the result, the
final state of the invoices table, and the ordered effect trace. -/
structure Outcome where
  result : ActionResult
  invoices : List InvoiceRow
  effects : List Effect
deriving DecidableEq

/-! ## The handlers of `src/app/lib/action.ts` -/

/-- Handler `createInvoice`: validate, convert to cents, stamp the current date,
insert, revalidate the listing cache, redirect.  `dbFail` models the
store raising on the statement; `newId` is the store-assigned id. -/
def createInvoice (today : CalDate) (newId : String) (db : List InvoiceRow) (dbFail : Bool)
    (formData : RawForm) : Outcome :=
  match safeParse formData with
  | .error fieldErrors =>
    ⟨.returned ⟨some fieldErrors, some "Missing Fields. Failed to create invoice."⟩, db, []⟩
  | .ok data =>
    let amountsInCents := Dbl.mul data.amount (Dbl.ofInt 100)
    let date := isoDateString today
    if dbFail then
      ⟨.returned ⟨none, some "Database error: Failed to creata Invoice"⟩, db, []⟩
    else
      ⟨.redirected "/dashboard/invoices",
        insertInvoiceRow db ⟨newId, data.customerId, amountsInCents, data.status, date⟩,
        [.revalidate "/dashboard/invoices", .redirect "/dashboard/invoices"]⟩

/-- Handler `updateInvoice`: validate, convert to cents, update the row with the
given id, revalidate the listing cache, redirect. -/
def updateInvoice (id : String) (db : List InvoiceRow) (dbFail : Bool)
    (formData : RawForm) : Outcome :=
  match safeParse formData with
  | .error fieldErrors =>
    ⟨.returned ⟨some fieldErrors, some "Missing Fields. Failed to Update Invoice."⟩, db, []⟩
  | .ok data =>
    let amountsInCents := Dbl.mul data.amount (Dbl.ofInt 100)
    if dbFail then
      ⟨.returned ⟨none, some "Database error: fail to update invoice"⟩, db, []⟩
    else
      ⟨.redirected "/dashboard/invoices",
        sqlUpdateInvoices db id data.customerId amountsInCents data.status,
        [.revalidate "/dashboard/invoices", .redirect "/dashboard/invoices"]⟩

/-- Handler `deleteInvoice`: delete the row, revalidate the listing cache, and
return a message (no redirect). -/
def deleteInvoice (id : String) (db : List InvoiceRow) (dbFail : Bool) : Outcome :=
  if dbFail then
    ⟨.returned ⟨none, some "Database error: fail to delete invoice"⟩, db, []⟩
  else
    ⟨.returned ⟨none, some "Invoice Deleted"⟩, sqlDeleteInvoices db id,
      [.revalidate "/dashboard/invoices"]⟩

/-! ## The authentication wrapper -/

/-- How the external `signIn('credentials', formData)` call can end: it
resolves, it throws an `AuthError` carrying its `type` discriminator, or
it throws some other error. -/
inductive SignInResult where
  | ok
  | authErr (kind : String)
  | exn (message : String)
deriving DecidableEq

/-- Wrapper `authenticate`: an `AuthError` of type `CredentialsSignin` becomes
the string "Invalid credentials.", any other `AuthError` becomes
"Something went wrong.", any other error is re-thrown (`Except.error`),
and on success the handler returns `undefined` (`none`). -/
def authenticate : SignInResult → Except String (Option String)
  | .ok => .ok none
  | .authErr t =>
    .ok (some (if t = "CredentialsSignin" then "Invalid credentials." else "Something went wrong."))
  | .exn e => .error e

/-! ## Generic helpers -/

set_option maxRecDepth 40000

instance {α β : Type} [DecidableEq α] [DecidableEq β] : DecidableEq (Except α β) := fun a b =>
  match a, b with
  | .error x, .error y =>
    if h : x = y then .isTrue (by rw [h]) else .isFalse (by intro hc; cases hc; exact h rfl)
  | .ok x, .ok y =>
    if h : x = y then .isTrue (by rw [h]) else .isFalse (by intro hc; cases hc; exact h rfl)
  | .error _, .ok _ => .isFalse (by intro hc; cases hc)
  | .ok _, .error _ => .isFalse (by intro hc; cases hc)

/-- A binary64 value is nonpositive exactly when its mantissa is. -/
theorem Dbl.toRat_nonpos_iff (d : Dbl) : d.toRat ≤ 0 ↔ d.m ≤ 0 := by
  unfold Dbl.toRat
  split
  · have h2 : (0 : ℚ) < 2 ^ d.e.toNat := by positivity
    constructor
    · intro h
      by_contra hm
      push_neg at hm
      have hm' : (0 : ℚ) < (d.m : ℚ) := by exact_mod_cast hm
      nlinarith
    · intro h
      have hm' : (d.m : ℚ) ≤ 0 := by exact_mod_cast h
      nlinarith
  · have h2 : (0 : ℚ) < 2 ^ (-d.e).toNat := by positivity
    constructor
    · intro h
      by_contra hm
      push_neg at hm
      have hm' : (0 : ℚ) < (d.m : ℚ) := by exact_mod_cast hm
      have := div_pos hm' h2
      linarith
    · intro h
      have hm' : (d.m : ℚ) ≤ 0 := by exact_mod_cast h
      exact div_nonpos_of_nonpos_of_nonneg hm' (le_of_lt h2)

/-- Deleting by an id that occurs in a table with pairwise-distinct ids
removes exactly the row carrying it. -/
theorem filterNe_eq_erase (db : List InvoiceRow) (r : InvoiceRow)
    (hnd : (db.map InvoiceRow.id).Nodup) (hr : r ∈ db) :
    db.filter (fun x => x.id != r.id) = db.erase r := by
  induction db with
  | nil => cases hr
  | cons a l ih =>
    rw [List.map_cons, List.nodup_cons] at hnd
    obtain ⟨ha, hl⟩ := hnd
    rcases List.mem_cons.mp hr with h | h
    · subst h
      rw [List.erase_cons_head, List.filter_cons]
      simp only [bne_self_eq_false, Bool.false_eq_true, if_false]
      apply List.filter_eq_self.mpr
      intro x hx
      have : x.id ≠ r.id := fun hEq => ha (hEq ▸ List.mem_map_of_mem InvoiceRow.id hx)
      simpa [bne_iff_ne] using this
    · have haid : a.id ≠ r.id := fun hEq => ha (hEq ▸ List.mem_map_of_mem InvoiceRow.id h)
      have haR : a ≠ r := fun hEq => haid (by rw [hEq])
      rw [List.filter_cons]
      have hb : (a.id != r.id) = true := by simpa [bne_iff_ne] using haid
      rw [hb]
      simp only [if_true]
      rw [List.erase_cons_tail (by simpa using haR)]
      exact congrArg (a :: ·) (ih hl h)

/-! ## The claims -/

/-- C1: for the valid input `{customerId: "c1", amount: "19.99", status:
"pending"}` the stored date is the current calendar date in YYYY-MM-DD
form, but the stored amount is NOT the integer 1999: the binary64
computation `Number("19.99") * 100` yields exactly
`8791694975696895 * 2^(-42) = 1998.9999999999997726…`. -/
theorem createInvoice_valid_input_amount_and_date (today : CalDate) (newId : String)
    (db : List InvoiceRow) :
    (createInvoice today newId db false ⟨some "c1", some "19.99", some "pending"⟩).invoices
      = db ++ [⟨newId, "c1", ⟨8791694975696895, -42⟩, "pending", isoDateString today⟩]
    ∧ Dbl.toRat ⟨8791694975696895, -42⟩ = 8791694975696895 / 4398046511104
    ∧ Dbl.toRat ⟨8791694975696895, -42⟩ ≠ (1999 : ℚ) := by
  have hval : Dbl.toRat ⟨8791694975696895, -42⟩ = 8791694975696895 / 4398046511104 := by
    have h42 : ((42 : ℤ)).toNat = (42 : ℕ) := rfl
    norm_num [Dbl.toRat, h42]
  refine ⟨?_, hval, ?_⟩
  · have hp : safeParse ⟨some "c1", some "19.99", some "pending"⟩
        = .ok ⟨"c1", ⟨5626684784446013, -48⟩, "pending"⟩ := by decide
    have hm : Dbl.mul ⟨5626684784446013, -48⟩ (Dbl.ofInt 100) = ⟨8791694975696895, -42⟩ := by
      decide
    simp [createInvoice, hp, hm, insertInvoiceRow]
  · rw [hval]
    norm_num

/-- C2: the amount persisted for the valid input amount "19.99" — by
`createInvoice` as well as by `updateInvoice` — is the binary64 product
`Number("19.99") * 100`, which is not an integer number of minor units:
its exact value `8791694975696895 / 2^42` equals no integer. -/
theorem stored_amount_not_integer_minor_units (today : CalDate) (newId id : String)
    (db : List InvoiceRow) :
    (createInvoice today newId db false ⟨some "c1", some "19.99", some "pending"⟩).invoices
      = db ++ [⟨newId, "c1", ⟨8791694975696895, -42⟩, "pending", isoDateString today⟩]
    ∧ (updateInvoice id db false ⟨some "c1", some "19.99", some "pending"⟩).invoices
      = sqlUpdateInvoices db id "c1" ⟨8791694975696895, -42⟩ "pending"
    ∧ ∀ n : ℤ, Dbl.toRat ⟨8791694975696895, -42⟩ ≠ (n : ℚ) := by
  have hp : safeParse ⟨some "c1", some "19.99", some "pending"⟩
      = .ok ⟨"c1", ⟨5626684784446013, -48⟩, "pending"⟩ := by decide
  have hm : Dbl.mul ⟨5626684784446013, -48⟩ (Dbl.ofInt 100) = ⟨8791694975696895, -42⟩ := by
    decide
  refine ⟨?_, ?_, ?_⟩
  · simp [createInvoice, hp, hm, insertInvoiceRow]
  · simp [updateInvoice, hp, hm]
  · intro n h
    have hval : Dbl.toRat ⟨8791694975696895, -42⟩ = 8791694975696895 / 4398046511104 := by
      have h42 : ((42 : ℤ)).toNat = (42 : ℕ) := rfl
      norm_num [Dbl.toRat, h42]
    rw [hval] at h
    have h2 : (8791694975696895 : ℚ) = (n : ℚ) * 4398046511104 :=
      (div_eq_iff (by norm_num)).mp h
    have h3 : (8791694975696895 : ℤ) = n * 4398046511104 := by exact_mod_cast h2
    omega

/-- C3 counterexample: an empty-string `customerId` does NOT fail
validation — `z.string()` accepts "" — so `createInvoice` proceeds all
the way to the insert and the redirect. -/
theorem empty_customerId_passes_validation :
    (createInvoice ⟨2026, 10, 12⟩ "id1" [] false ⟨some "", some "5", some "pending"⟩)
      = ⟨.redirected "/dashboard/invoices",
         [⟨"id1", "", ⟨8796093022208000, -44⟩, "pending", "2026-10-12"⟩],
         [.revalidate "/dashboard/invoices", .redirect "/dashboard/invoices"]⟩ := by
  decide

/-- C3 (amended): when the `customerId` form field is missing (raw value
`null`), validation fails with the customerId-scoped error exactly
"Please select a customer." and both handlers return the structured
error result, leaving the table untouched and performing no effect. -/
theorem missing_customerId_fails_validation (today : CalDate) (newId id : String)
    (db : List InvoiceRow) (fa fs : Option String) :
    createInvoice today newId db false ⟨none, fa, fs⟩
      = ⟨.returned ⟨some ⟨["Please select a customer."], errList (parseAmount fa),
            errList (parseStatus fs)⟩, some "Missing Fields. Failed to create invoice."⟩,
          db, []⟩
    ∧ updateInvoice id db false ⟨none, fa, fs⟩
      = ⟨.returned ⟨some ⟨["Please select a customer."], errList (parseAmount fa),
            errList (parseStatus fs)⟩, some "Missing Fields. Failed to Update Invoice."⟩,
          db, []⟩ := by
  exact ⟨rfl, rfl⟩

/-- C4 counterexample: for amount "0" the amount-scoped message is the
source literal "Please enter an amount greate than $0." — with the
misspelling — and not the claimed "Please enter an amount greater than
$0.". -/
theorem amount_error_message_spelling :
    (createInvoice ⟨2026, 10, 12⟩ "id1" [] false ⟨some "c1", some "0", some "pending"⟩)
      = ⟨.returned ⟨some ⟨[], ["Please enter an amount greate than $0."], []⟩,
          some "Missing Fields. Failed to create invoice."⟩, [], []⟩
    ∧ (["Please enter an amount greate than $0."] : List String)
        ≠ ["Please enter an amount greater than $0."] := by
  constructor
  · decide
  · decide

/-- C4 (amended): whenever the amount field coerces to a number that is
not strictly positive, validation fails with the amount-scoped message
exactly "Please enter an amount greate than $0." (the source literal,
misspelling included), no store call occurs, and both handlers return
the field-error result. -/
theorem nonpositive_amount_fails_validation (today : CalDate) (newId id : String)
    (db : List InvoiceRow) (f : RawForm) (q : Dbl)
    (hq : coerceNumber f.amount = some q) (hle : q.toRat ≤ 0) :
    createInvoice today newId db false f
      = ⟨.returned ⟨some ⟨errList (parseCustomerId f.customerId),
            ["Please enter an amount greate than $0."], errList (parseStatus f.status)⟩,
          some "Missing Fields. Failed to create invoice."⟩, db, []⟩
    ∧ updateInvoice id db false f
      = ⟨.returned ⟨some ⟨errList (parseCustomerId f.customerId),
            ["Please enter an amount greate than $0."], errList (parseStatus f.status)⟩,
          some "Missing Fields. Failed to Update Invoice."⟩, db, []⟩ := by
  obtain ⟨fc, fa, fs⟩ := f
  have hm : q.m ≤ 0 := (Dbl.toRat_nonpos_iff q).mp hle
  have hpa : parseAmount fa = .error ["Please enter an amount greate than $0."] := by
    unfold parseAmount
    rw [hq]
    simp [Int.not_lt.mpr hm]
  cases fc with
  | none =>
    constructor <;> simp [createInvoice, updateInvoice, safeParse, hpa, parseCustomerId, errList]
  | some c =>
    constructor <;> simp [createInvoice, updateInvoice, safeParse, hpa, parseCustomerId, errList]

/-- C4 witness: the amended theorem applied at the concrete input with
amount "0". -/
theorem nonpositive_amount_fails_validation_witness :
    createInvoice ⟨2026, 10, 12⟩ "idW" [] false ⟨some "cW", some "0", some "paid"⟩
      = ⟨.returned ⟨some ⟨[], ["Please enter an amount greate than $0."], []⟩,
          some "Missing Fields. Failed to create invoice."⟩, [], []⟩ := by
  have h := nonpositive_amount_fails_validation ⟨2026, 10, 12⟩ "idW" "idU" []
    ⟨some "cW", some "0", some "paid"⟩ ⟨0, 0⟩ (by decide)
    (by norm_num [Dbl.toRat])
  rw [h.1]
  decide

/-- C5 counterexample: a store failure during insert yields the source
literal "Database error: Failed to creata Invoice", which is not the
claimed "Database error: Failed to create invoice.". -/
theorem create_db_error_message_literal :
    (createInvoice ⟨2026, 10, 12⟩ "id1" [] true ⟨some "c1", some "7", some "paid"⟩).result
      = .returned ⟨none, some "Database error: Failed to creata Invoice"⟩
    ∧ ("Database error: Failed to creata Invoice" : String)
        ≠ "Database error: Failed to create invoice." := by
  constructor
  · decide
  · decide

/-- C5 (amended): a store-level failure during insert, update or delete
is caught and the handler returns exactly the source literals
"Database error: Failed to creata Invoice",
"Database error: fail to update invoice" and
"Database error: fail to delete invoice" respectively, with the
invoices table unchanged and no effect performed. -/
theorem store_failure_returns_generic_message (today : CalDate) (newId id : String)
    (db : List InvoiceRow) (f : RawForm) (d : InvoiceFields) (hp : safeParse f = .ok d) :
    createInvoice today newId db true f
      = ⟨.returned ⟨none, some "Database error: Failed to creata Invoice"⟩, db, []⟩
    ∧ updateInvoice id db true f
      = ⟨.returned ⟨none, some "Database error: fail to update invoice"⟩, db, []⟩
    ∧ deleteInvoice id db true
      = ⟨.returned ⟨none, some "Database error: fail to delete invoice"⟩, db, []⟩ := by
  refine ⟨?_, ?_, rfl⟩ <;> simp [createInvoice, updateInvoice, hp]

/-- C5 witness: the amended theorem applied at a concrete valid input,
with the store failing. -/
theorem store_failure_returns_generic_message_witness :
    createInvoice ⟨2026, 10, 12⟩ "id1" [] true ⟨some "c1", some "7", some "paid"⟩
      = ⟨.returned ⟨none, some "Database error: Failed to creata Invoice"⟩, [], []⟩
    ∧ deleteInvoice "i9" [] true
      = ⟨.returned ⟨none, some "Database error: fail to delete invoice"⟩, [], []⟩ := by
  have h := store_failure_returns_generic_message ⟨2026, 10, 12⟩ "id1" "i9" []
    ⟨some "c1", some "7", some "paid"⟩ ⟨"c1", ⟨7881299347898368, -50⟩, "paid"⟩ (by decide)
  exact ⟨h.1, h.2.2⟩

/-- C6: `authenticate` returns "Invalid credentials." for an auth error
of type CredentialsSignin, "Something went wrong." for any other auth
error, re-raises any non-auth error unchanged, and returns `undefined`
(`none`) on success. -/
theorem authenticate_error_classification (t e : String) (ht : t ≠ "CredentialsSignin") :
    authenticate .ok = .ok none
    ∧ authenticate (.authErr "CredentialsSignin") = .ok (some "Invalid credentials.")
    ∧ authenticate (.authErr t) = .ok (some "Something went wrong.")
    ∧ authenticate (.exn e) = .error e := by
  refine ⟨rfl, rfl, ?_, rfl⟩
  simp [authenticate, ht]

/-- C6 witness: the classification applied at a concrete non-credential
auth error type and a concrete non-auth exception. -/
theorem authenticate_error_classification_witness :
    authenticate (.authErr "AccessDenied") = .ok (some "Something went wrong.")
    ∧ authenticate (.exn "boom") = .error "boom" :=
  ⟨(authenticate_error_classification "AccessDenied" "boom" (by decide)).2.2.1,
   (authenticate_error_classification "AccessDenied" "boom" (by decide)).2.2.2⟩

/-- C7: on a successful insert or update the handler first revalidates
the listing cache and then redirects to the listing route (the effect
trace lists them in execution order); on a successful delete only the
revalidation happens and the caller receives the value
`{ message: "Invoice Deleted" }`. -/
theorem revalidate_precedes_redirect (today : CalDate) (newId id : String)
    (db : List InvoiceRow) (f : RawForm) (d : InvoiceFields) (hp : safeParse f = .ok d) :
    (createInvoice today newId db false f).effects
      = [.revalidate "/dashboard/invoices", .redirect "/dashboard/invoices"]
    ∧ (createInvoice today newId db false f).result = .redirected "/dashboard/invoices"
    ∧ (updateInvoice id db false f).effects
      = [.revalidate "/dashboard/invoices", .redirect "/dashboard/invoices"]
    ∧ (updateInvoice id db false f).result = .redirected "/dashboard/invoices"
    ∧ (deleteInvoice id db false).effects = [.revalidate "/dashboard/invoices"]
    ∧ (deleteInvoice id db false).result = .returned ⟨none, some "Invoice Deleted"⟩ := by
  refine ⟨?_, ?_, ?_, ?_, rfl, rfl⟩ <;> simp [createInvoice, updateInvoice, hp]

/-- C7 witness: the effect-order theorem applied at a concrete valid
input. -/
theorem revalidate_precedes_redirect_witness :
    (createInvoice ⟨2026, 10, 12⟩ "id1" [] false ⟨some "c1", some "7", some "paid"⟩).effects
      = [.revalidate "/dashboard/invoices", .redirect "/dashboard/invoices"]
    ∧ (deleteInvoice "i9" [] false).effects = [.revalidate "/dashboard/invoices"] := by
  have h := revalidate_precedes_redirect ⟨2026, 10, 12⟩ "id1" "i9" []
    ⟨some "c1", some "7", some "paid"⟩ ⟨"c1", ⟨7881299347898368, -50⟩, "paid"⟩ (by decide)
  exact ⟨h.1, h.2.2.2.2.1⟩

/-- C8: with pairwise-distinct row ids, deleting an existing id removes
exactly that one row (the table becomes `db.erase r`) and no other;
deleting a non-existent id leaves the table unchanged; in both cases the
result is the success value `{ message: "Invoice Deleted" }`. -/
theorem deleteInvoice_exact_row_removal (id : String) (db : List InvoiceRow)
    (hnd : (db.map InvoiceRow.id).Nodup) :
    (deleteInvoice id db false).result = .returned ⟨none, some "Invoice Deleted"⟩
    ∧ (∀ r, r ∈ db → r.id = id → (deleteInvoice id db false).invoices = db.erase r)
    ∧ ((∀ r, r ∈ db → r.id ≠ id) → (deleteInvoice id db false).invoices = db) := by
  refine ⟨rfl, ?_, ?_⟩
  · intro r hr hid
    show sqlDeleteInvoices db id = db.erase r
    unfold sqlDeleteInvoices
    rw [← hid]
    exact filterNe_eq_erase db r hnd hr
  · intro h
    show sqlDeleteInvoices db id = db
    unfold sqlDeleteInvoices
    apply List.filter_eq_self.mpr
    intro x hx
    simpa [bne_iff_ne] using h x hx

/-- C8 witness: the theorem applied to a concrete two-row table, once
with an existing id and once with a non-existent one. -/
theorem deleteInvoice_exact_row_removal_witness :
    (deleteInvoice "a" [⟨"a", "c1", ⟨0, 0⟩, "pending", "2026-01-01"⟩,
        ⟨"b", "c2", ⟨0, 0⟩, "paid", "2026-01-02"⟩] false).invoices
      = [⟨"b", "c2", ⟨0, 0⟩, "paid", "2026-01-02"⟩]
    ∧ (deleteInvoice "z" [⟨"a", "c1", ⟨0, 0⟩, "pending", "2026-01-01"⟩,
        ⟨"b", "c2", ⟨0, 0⟩, "paid", "2026-01-02"⟩] false).invoices
      = [⟨"a", "c1", ⟨0, 0⟩, "pending", "2026-01-01"⟩,
         ⟨"b", "c2", ⟨0, 0⟩, "paid", "2026-01-02"⟩]
    ∧ (deleteInvoice "z" [⟨"a", "c1", ⟨0, 0⟩, "pending", "2026-01-01"⟩,
        ⟨"b", "c2", ⟨0, 0⟩, "paid", "2026-01-02"⟩] false).result
      = .returned ⟨none, some "Invoice Deleted"⟩ := by
  have h1 := deleteInvoice_exact_row_removal "a"
    [⟨"a", "c1", ⟨0, 0⟩, "pending", "2026-01-01"⟩,
     ⟨"b", "c2", ⟨0, 0⟩, "paid", "2026-01-02"⟩] (by decide)
  have h2 := deleteInvoice_exact_row_removal "z"
    [⟨"a", "c1", ⟨0, 0⟩, "pending", "2026-01-01"⟩,
     ⟨"b", "c2", ⟨0, 0⟩, "paid", "2026-01-02"⟩] (by decide)
  refine ⟨?_, ?_, h2.1⟩
  · rw [h1.2.1 ⟨"a", "c1", ⟨0, 0⟩, "pending", "2026-01-01"⟩ (by decide) rfl]
    decide
  · exact h2.2.2 (by decide)

/-- C9: a successful update maps the table through `updateInvoiceRow`,
which changes only `customer_id`, `amount` and `status` of the rows
matching the given id: every row keeps its `id` and `date`, and a row
whose id differs is entirely unchanged. -/
theorem updateInvoice_frame_conditions (id : String) (db : List InvoiceRow) (f : RawForm)
    (d : InvoiceFields) (hp : safeParse f = .ok d) :
    (updateInvoice id db false f).invoices
      = db.map (updateInvoiceRow id d.customerId (Dbl.mul d.amount (Dbl.ofInt 100)) d.status)
    ∧ (∀ (cid : String) (amt : Dbl) (st : String) (r : InvoiceRow),
        (updateInvoiceRow id cid amt st r).id = r.id
        ∧ (updateInvoiceRow id cid amt st r).date = r.date
        ∧ (r.id ≠ id → updateInvoiceRow id cid amt st r = r)
        ∧ (r.id = id → (updateInvoiceRow id cid amt st r).customer_id = cid
            ∧ (updateInvoiceRow id cid amt st r).amount = amt
            ∧ (updateInvoiceRow id cid amt st r).status = st)) := by
  constructor
  · simp [updateInvoice, hp, sqlUpdateInvoices]
  · intro cid amt st r
    unfold updateInvoiceRow
    by_cases h : r.id = id <;> simp [h]

/-- C9 witness: the frame theorem applied to a concrete table: the
matched row keeps id and date, the other row is untouched. -/
theorem updateInvoice_frame_conditions_witness :
    (updateInvoice "a" [⟨"a", "cX", ⟨0, 0⟩, "paid", "2020-01-01"⟩,
        ⟨"b", "c2", ⟨0, 0⟩, "paid", "2026-01-02"⟩] false
      ⟨some "c9", some "7", some "pending"⟩).invoices
      = [⟨"a", "c9", ⟨6157265115545600, -43⟩, "pending", "2020-01-01"⟩,
         ⟨"b", "c2", ⟨0, 0⟩, "paid", "2026-01-02"⟩] := by
  have h := updateInvoice_frame_conditions "a"
    [⟨"a", "cX", ⟨0, 0⟩, "paid", "2020-01-01"⟩, ⟨"b", "c2", ⟨0, 0⟩, "paid", "2026-01-02"⟩]
    ⟨some "c9", some "7", some "pending"⟩ ⟨"c9", ⟨7881299347898368, -50⟩, "pending"⟩ (by decide)
  rw [h.1]
  decide

/-- C10: when the amount form field is absent, `formData.get` yields
`null`, the coercion maps it to the number 0, the strictly-positive
check fails, and both handlers return a validation failure whose
amount-scoped error is the greater-than-zero message (not a
missing-field or type error); the store is untouched. -/
theorem absent_amount_coerced_to_zero (today : CalDate) (newId id : String)
    (db : List InvoiceRow) (cid st : Option String) :
    coerceNumber none = some ⟨0, 0⟩
    ∧ createInvoice today newId db false ⟨cid, none, st⟩
      = ⟨.returned ⟨some ⟨errList (parseCustomerId cid),
            ["Please enter an amount greate than $0."], errList (parseStatus st)⟩,
          some "Missing Fields. Failed to create invoice."⟩, db, []⟩
    ∧ updateInvoice id db false ⟨cid, none, st⟩
      = ⟨.returned ⟨some ⟨errList (parseCustomerId cid),
            ["Please enter an amount greate than $0."], errList (parseStatus st)⟩,
          some "Missing Fields. Failed to Update Invoice."⟩, db, []⟩ := by
  refine ⟨rfl, ?_, ?_⟩ <;> cases cid <;> rfl
